import Mathlib

/-!
Verification of the generic view classes in `mayan/apps/common/generics.py`.

The module is framework glue over Django class-based views.  We embed the
decision logic of each method shallowly: querysets are abstract terms with an
`order_by` constructor, requests carry the query parameters the code reads,
flashed messages and HTTP responses are explicit return values, and Python
exceptions become `Except` / explicit "raised" fields.
-/

namespace Generics

/-- Severity of a flashed message (`messages.error` / `messages.success`). -/
inductive MessageLevel
  | success
  | error
  deriving DecidableEq, Repr

/-- A message flashed through the framework messaging middleware. -/
structure Message where
  level : MessageLevel
  text : String
  deriving DecidableEq, Repr

/-- An abstract queryset: either a model's default queryset or the result of
applying `.order_by(field)` to another queryset. -/
inductive Queryset
  | base (model : String)
  | order_by (qs : Queryset) (field : String)
  deriving DecidableEq, Repr

/-- The attributes of a view instance that the framework queryset lookup
consults: the `queryset` class attribute and the `model` class attribute. -/
structure ViewState where
  queryset : Option Queryset
  model : Option String
  deriving DecidableEq, Repr

/-- The framework (Django) queryset lookup used by the `super().get_queryset()`
calls: it returns `self.queryset` when set, otherwise the model's default
queryset, and raises `ImproperlyConfigured` when neither attribute is set.
This is the behaviour of `django.views.generic.list/detail` `get_queryset`,
which is framework code outside this repository. -/
def djangoGetQueryset (s : ViewState) : Except Unit Queryset :=
  match s.queryset with
  | some qs => Except.ok qs
  | none =>
      match s.model with
      | some m => Except.ok (Queryset.base m)
      | none => Except.error ()

/-- The shared `get_queryset` convention of the guarded views
(`SingleObjectListView`, `SingleObjectDeleteView`, `SingleObjectDetailView`,
`MultipleObjectFormActionView`, `MultipleObjectConfirmActionView`,
`MultipleObjectDownloadView`, `SingleObjectDownloadView`): try the framework
lookup; on `ImproperlyConfigured` set `self.queryset` to
`self.get_source_queryset()` and retry the framework lookup.  The result is
the updated view state together with the returned queryset. -/
def restricted_get_queryset (s : ViewState) (source : Queryset) :
    ViewState × Except Unit Queryset :=
  match djangoGetQueryset s with
  | Except.ok qs => (s, Except.ok qs)
  | Except.error _ =>
      let s' : ViewState := { s with queryset := some source }
      (s', djangoGetQueryset s')

/-- Modelled from the spec: the constant `TEXT_SORT_ORDER_CHOICE_ASCENDING`
imported from the `common.literals` module, which is not among the sources;
only its identity (equality comparison with the sort-order query parameter)
matters to the code. -/
def TEXT_SORT_ORDER_CHOICE_ASCENDING : String := "asc"

/-- The two query parameters `SingleObjectListView` reads
(`TEXT_SORT_FIELD_PARAMETER` and `TEXT_SORT_ORDER_PARAMETER`); `none` models
an absent parameter, as returned by `request.GET.get`. -/
structure RequestGET where
  sortField : Option String
  sortOrder : Option String
  deriving DecidableEq, Repr

/-- Python truthiness of `request.GET.get(...)`: `None` and the empty string
are falsy, every other string is truthy. -/
def pyTruthy : Option String → Bool
  | none => false
  | some s => s ≠ ""

namespace SingleObjectListView

/-- Embedding of `SingleObjectListView.get_sort_field`. -/
def get_sort_field (req : RequestGET) : Option String :=
  req.sortField

/-- Embedding of `SingleObjectListView.get_sort_order`. -/
def get_sort_order (req : RequestGET) : Option String :=
  req.sortOrder

/-- Embedding of `SingleObjectListView.get_paginate_by`: the page size is the
global setting's value, whatever the queryset argument. -/
def get_paginate_by (setting_paginate_by_value : Nat) (_queryset : Queryset) :
    Nat :=
  setting_paginate_by_value

/-- Embedding of `SingleObjectListView.get_queryset`: framework lookup with
the `get_source_queryset` fallback, then ordering driven by the sort-field
and sort-order query parameters. -/
def get_queryset (s : ViewState) (source : Queryset) (req : RequestGET) :
    ViewState × Except Unit Queryset :=
  match restricted_get_queryset s source with
  | (s', Except.ok queryset) =>
      let field_name := get_sort_field req
      let sort_order :=
        if get_sort_order req = some TEXT_SORT_ORDER_CHOICE_ASCENDING then ""
        else "-"
      if pyTruthy field_name then
        (s', Except.ok (Queryset.order_by queryset
          (sort_order ++ field_name.getD "")))
      else
        (s', Except.ok queryset)
  | (s', Except.error e) => (s', Except.error e)

end SingleObjectListView

/-- An HTTP response as produced by the create/edit `form_valid` methods:
either a redirect to a URL or the parent class's form-invalid re-render. -/
inductive Response
  | redirect (url : String)
  | formInvalid
  deriving DecidableEq, Repr

namespace SingleObjectCreateView

/-- Embedding of `SingleObjectCreateView.get_error_message_duplicate`. -/
def get_error_message_duplicate (error_message_duplicate : Option String) :
    Option String :=
  error_message_duplicate

/-- Embedding of `SingleObjectCreateView.form_valid`.  The outcome of
`self.object.validate_unique()` and of `self.object.save(**save_extra_data)`
are inputs: `Except.error e` models the call raising with message `e`.  The
result is the list of flashed messages and the returned response. -/
def form_valid (validate_unique : Except String Unit)
    (save : Except String Unit) (error_message_duplicate : Option String)
    (object_name : String) (success_url : String) :
    List Message × Response :=
  match validate_unique with
  | Except.error error =>
      let error_message :=
        if pyTruthy (get_error_message_duplicate error_message_duplicate) then
          (get_error_message_duplicate error_message_duplicate).getD ""
        else
          "Duplicate data error: " ++ error
      ([Message.mk MessageLevel.error error_message], Response.formInvalid)
  | Except.ok _ =>
      match save with
      | Except.error exception =>
          ([Message.mk MessageLevel.error
              (object_name ++ " not created, error: " ++ exception)],
           Response.formInvalid)
      | Except.ok _ =>
          ([Message.mk MessageLevel.success
              (object_name ++ " created successfully.")],
           Response.redirect success_url)

end SingleObjectCreateView

namespace SingleObjectEditView

/-- Embedding of `SingleObjectEditView.form_valid`: save failure flashes an
error and returns the parent's form-invalid response; success flashes a
success message and redirects to the success URL. -/
def form_valid (save : Except String Unit) (object_name : String)
    (success_url : String) : List Message × Response :=
  match save with
  | Except.error exception =>
      ([Message.mk MessageLevel.error
          (object_name ++ " not updated, error: " ++ exception ++ ".")],
       Response.formInvalid)
  | Except.ok _ =>
      ([Message.mk MessageLevel.success
          (object_name ++ " updated successfully.")],
       Response.redirect success_url)

end SingleObjectEditView

namespace SingleObjectDeleteView

/-- Embedding of `SingleObjectDeleteView.delete`.  The parent class's delete
call is an input of type `Except String ρ` (`Except.error e` models it
raising exception `e`, `Except.ok r` models it returning response `r`).  The
result pairs the flashed messages with the method's own outcome: the parent
result on success, the re-raised exception on failure. -/
def delete {ρ : Type} (parent_delete : Except String ρ)
    (object_name : String) : List Message × Except String ρ :=
  match parent_delete with
  | Except.error exception =>
      ([Message.mk MessageLevel.error
          (object_name ++ " not deleted, error: " ++ exception ++ ".")],
       Except.error exception)
  | Except.ok result =>
      ([Message.mk MessageLevel.success
          (object_name ++ " deleted successfully.")],
       Except.ok result)

end SingleObjectDeleteView

/-- A bound form of a `MultiFormView`: its name in the `form_classes` dict
and whether `form.is_valid()` holds. -/
structure MultiForm where
  name : String
  valid : Bool
  deriving DecidableEq, Repr

/-- The response of a `MultiFormView` request: the result of a per-form
`<name>_form_valid` handler, a redirect to the success URL, or a re-render
with the given forms in the context (`forms_invalid`). -/
inductive MFResponse
  | handlerResult (form_name : String)
  | redirect (url : String)
  | renderWithForms (forms : List MultiForm)
  deriving DecidableEq, Repr

/-- The attributes of a `MultiFormView` subclass that `forms_valid`
consults: which names have a `<name>_form_valid` method, and the success
URL. -/
structure MultiFormViewModel where
  has_form_valid_method : String → Bool
  success_url : String

/-- Side effects of `MultiFormView.forms_valid`: which per-form handlers
were invoked and whether `all_forms_valid` was invoked. -/
structure MFEffects where
  handlers_invoked : List String
  all_forms_valid_invoked : Bool
  deriving DecidableEq, Repr

namespace MultiFormView

/-- Embedding of `MultiFormView.forms_valid`: iterate the forms dict in
order; the first form with a `<name>_form_valid` method returns that
handler's result immediately; if no form has one, `all_forms_valid` runs and
a redirect to the success URL is returned. -/
def forms_valid (v : MultiFormViewModel) :
    List MultiForm → MFEffects × MFResponse
  | [] =>
      (MFEffects.mk [] true, MFResponse.redirect v.success_url)
  | form :: rest =>
      if v.has_form_valid_method form.name then
        (MFEffects.mk [form.name] false, MFResponse.handlerResult form.name)
      else
        forms_valid v rest

/-- Embedding of `MultiFormView.forms_invalid`: re-render the response with
the bound forms in the context. -/
def forms_invalid (forms : List MultiForm) : MFResponse :=
  MFResponse.renderWithForms forms

/-- Embedding of `MultiFormView.get_forms`: instantiate one form per entry
of `form_classes`; `is_valid` gives each bound form's validation outcome. -/
def get_forms (form_classes : List String) (is_valid : String → Bool) :
    List MultiForm :=
  form_classes.map fun name => MultiForm.mk name (is_valid name)

/-- Embedding of `MultiFormView.post`: instantiate all configured forms and
dispatch to `forms_valid` when every form validates, to `forms_invalid`
otherwise.  The first component records the effects of `forms_valid` when it
ran. -/
def post (v : MultiFormViewModel) (form_classes : List String)
    (is_valid : String → Bool) : Option MFEffects × MFResponse :=
  let forms := get_forms form_classes is_valid
  if forms.all (fun form => form.valid) then
    let r := forms_valid v forms
    (some r.1, r.2)
  else
    (none, forms_invalid forms)

end MultiFormView

/-- A model instance as consumed by `AssignRemoveView.generate_choices`: its
content type's model name (`ContentType.objects.get_for_model(...).model`),
its primary key, and its text label (`force_text(choice)`). -/
structure ModelInstance where
  ct_model : String
  pk : Nat
  label : String
  deriving DecidableEq, Repr

/-- Result of `AssignRemoveView.process_form`'s selection loop: the
selections whose action function succeeded, the flashed messages, and the
exception propagating out of the method, when one does. -/
structure ProcessResult where
  transferred : List String
  messages : List Message
  raised : Option String
  deriving DecidableEq, Repr

/-- Whether a modelled Python call returned normally rather than raising. -/
def exceptOk {ε α : Type} : Except ε α → Bool
  | Except.ok _ => true
  | Except.error _ => false

/-- Comparison by the second component (the label) of a choice pair, the
key function `lambda x: x[1]` passed to `sorted`. -/
def labelLE (a b : String × String) : Prop :=
  a.2 ≤ b.2

instance : DecidableRel labelLE :=
  fun a b => inferInstanceAs (Decidable (a.2 ≤ b.2))

instance : IsTotal (String × String) labelLE :=
  ⟨fun a b => le_total a.2 b.2⟩

instance : IsTrans (String × String) labelLE :=
  ⟨fun _ _ _ hab hbc => le_trans hab hbc⟩

namespace AssignRemoveView

/-- Embedding of the static method `AssignRemoveView.generate_choices`: one
pair `('<content-type model>,<pk>', label)` per instance, sorted by the
label, the second component.  Python's `sorted` is a stable sort by the key
function, embedded as the stable `List.insertionSort` on the label. -/
def generate_choices (choices : List ModelInstance) :
    List (String × String) :=
  List.insertionSort labelLE
    (choices.map fun choice =>
      (choice.ct_model ++ "," ++ toString choice.pk, choice.label))

/-- Embedding of the `for selection in form.cleaned_data['selection']` loop
of `AssignRemoveView.process_form`.  `action_function selection` is
`Except.error e` when the add/remove call raises exception `e`;
`label_of selection` is the label looked up via `dict(flat_list)[selection]`.
With `settings.DEBUG` false a failure flashes an error naming the label and
the loop continues; with it true the exception propagates at once. -/
def process_selections (debug : Bool) (label_of : String → String)
    (action_function : String → Except String Unit) :
    List String → ProcessResult
  | [] => ProcessResult.mk [] [] none
  | selection :: rest =>
      match action_function selection with
      | Except.ok _ =>
          let r := process_selections debug label_of action_function rest
          ProcessResult.mk (selection :: r.transferred) r.messages r.raised
      | Except.error exception =>
          if debug then
            ProcessResult.mk [] [] (some exception)
          else
            let r := process_selections debug label_of action_function rest
            ProcessResult.mk r.transferred
              (Message.mk MessageLevel.error
                ("Unable to transfer selection: " ++ label_of selection ++ ".")
                :: r.messages)
              r.raised

/-- Embedding of `AssignRemoveView.process_form`: nothing happens unless the
submit button for this list was in the POST data and the bound `ChoiceForm`
validates; otherwise the selection loop runs. -/
def process_form (submitted : Bool) (form_is_valid : Bool) (debug : Bool)
    (label_of : String → String)
    (action_function : String → Except String Unit)
    (selections : List String) : ProcessResult :=
  if submitted && form_is_valid then
    process_selections debug label_of action_function selections
  else
    ProcessResult.mk [] [] none

end AssignRemoveView

/-- The aspects of a Python class that the `__init__` guard of the guarded
views consults: the method resolution order of the concrete class (starting
with the class itself) and which classes define their own `get_queryset`. -/
structure PyClassInfo where
  mro : List String
  defines_get_queryset : String → Bool

/-- Python attribute lookup of `get_queryset` on the concrete class
(`self.__class__.mro()[0].get_queryset`): the function defined by the first
class in the MRO that defines the attribute, identified by that class. -/
def resolve_get_queryset (c : PyClassInfo) : Option String :=
  c.mro.find? c.defines_get_queryset

/-- Embedding of the guard shared by the guarded views' `__init__`
(`SingleObjectListView`, `SingleObjectDeleteView`, `SingleObjectDetailView`,
`MultipleObjectFormActionView`, `MultipleObjectConfirmActionView`,
`MultipleObjectDownloadView`, `SingleObjectDownloadView`): raise
`ImproperlyConfigured` exactly when the `get_queryset` resolved on the
concrete class is not the base view's own function, i.e. is not the one
defined by the class named `base`. -/
def guarded_init (base : String) (c : PyClassInfo) : Except Unit Unit :=
  if resolve_get_queryset c ≠ some base then Except.error ()
  else Except.ok ()

/-! ## Theorems -/

/-- After the fallback assigns `self.queryset`, the framework lookup always
succeeds, so `restricted_get_queryset` never propagates the exception. -/
theorem restricted_get_queryset_ok (s : ViewState) (source : Queryset) :
    ∃ qs, (restricted_get_queryset s source).2 = Except.ok qs := by
  rcases s with ⟨q, m⟩
  rcases q with _ | qs
  · rcases m with _ | mm
    · exact ⟨source, by simp [restricted_get_queryset, djangoGetQueryset]⟩
    · exact ⟨Queryset.base mm, by simp [restricted_get_queryset, djangoGetQueryset]⟩
  · exact ⟨qs, by simp [restricted_get_queryset, djangoGetQueryset]⟩

/-- C2: the shared `get_queryset` convention first delegates to the
framework lookup; exactly when that lookup raises `ImproperlyConfigured` it
sets `self.queryset` to `get_source_queryset()` and returns the framework
lookup applied to the updated state, which then yields the source queryset;
when the lookup succeeds the state is unchanged and its result is
returned. -/
theorem get_queryset_falls_back_to_source (s : ViewState) (source : Queryset) :
    (djangoGetQueryset s = Except.error () →
      restricted_get_queryset s source =
        ({ s with queryset := some source },
          djangoGetQueryset { s with queryset := some source })) ∧
    (∀ qs, djangoGetQueryset s = Except.ok qs →
      restricted_get_queryset s source = (s, Except.ok qs)) ∧
    djangoGetQueryset { s with queryset := some source } = Except.ok source := by
  refine ⟨?_, ?_, by simp [djangoGetQueryset]⟩
  · intro h
    simp [restricted_get_queryset, h]
  · intro qs h
    simp [restricted_get_queryset, h]

/-- Witness for C2: a view with neither `queryset` nor `model` set takes the
fallback path and returns the source queryset. -/
theorem get_queryset_falls_back_to_source_witness :
    restricted_get_queryset (ViewState.mk none none) (Queryset.base "document") =
      (ViewState.mk (some (Queryset.base "document")) none,
        Except.ok (Queryset.base "document")) := by
  have h :=
    (get_queryset_falls_back_to_source (ViewState.mk none none)
      (Queryset.base "document")).1 rfl
  simpa [djangoGetQueryset] using h

/-- C1: `SingleObjectListView.get_queryset` orders by the sort-field query
parameter when it is non-empty, ascending exactly when the sort-order query
parameter equals the ascending choice and descending ('-' prefixed)
otherwise, absent parameter included; with no non-empty sort-field parameter
the queryset of the fallback lookup is returned unordered. -/
theorem list_view_sorting_driven_by_query_parameters
    (s : ViewState) (source : Queryset) (req : RequestGET) :
    (∀ f, req.sortField = some f → f ≠ "" →
      ∃ pre qs,
        ((pre = "") ↔ req.sortOrder = some TEXT_SORT_ORDER_CHOICE_ASCENDING) ∧
        (pre = "" ∨ pre = "-") ∧
        (restricted_get_queryset s source).2 = Except.ok qs ∧
        (SingleObjectListView.get_queryset s source req).2 =
          Except.ok (Queryset.order_by qs (pre ++ f))) ∧
    (pyTruthy req.sortField = false →
      (SingleObjectListView.get_queryset s source req).2 =
        (restricted_get_queryset s source).2) := by
  rcases hq : restricted_get_queryset s source with ⟨s', r⟩
  rcases restricted_get_queryset_ok s source with ⟨qs, hqs⟩
  rw [hq] at hqs
  simp only at hqs
  subst hqs
  constructor
  · intro f hf hne
    by_cases ho : req.sortOrder = some TEXT_SORT_ORDER_CHOICE_ASCENDING
    · refine ⟨"", qs, by simp [ho], Or.inl rfl, by simp [hq], ?_⟩
      simp [SingleObjectListView.get_queryset, hq,
        SingleObjectListView.get_sort_field, SingleObjectListView.get_sort_order,
        pyTruthy, hf, hne, ho]
    · refine ⟨"-", qs, by simp [ho], Or.inr rfl, by simp [hq], ?_⟩
      simp [SingleObjectListView.get_queryset, hq,
        SingleObjectListView.get_sort_field, SingleObjectListView.get_sort_order,
        pyTruthy, hf, hne, ho]
  · intro hfalse
    simp [SingleObjectListView.get_queryset, hq,
      SingleObjectListView.get_sort_field, hfalse]

/-- Witness for C1: sorting by field `label` with the sort-order parameter
absent yields a descending `order_by('-label')`. -/
theorem list_view_sorting_witness :
    (SingleObjectListView.get_queryset
        (ViewState.mk (some (Queryset.base "document")) none)
        (Queryset.base "tag") (RequestGET.mk (some "label") none)).2 =
      Except.ok (Queryset.order_by (Queryset.base "document") "-label") := by
  rcases (list_view_sorting_driven_by_query_parameters
      (ViewState.mk (some (Queryset.base "document")) none)
      (Queryset.base "tag") (RequestGET.mk (some "label") none)).1
      "label" rfl (by decide) with ⟨pre, qs, hasc, hpre, hok, hres⟩
  have hqs : qs = Queryset.base "document" := by
    simpa [restricted_get_queryset, djangoGetQueryset] using hok.symm
  have hp : pre = "-" := by
    rcases hpre with h | h
    · exact absurd (hasc.mp h) (by simp)
    · exact h
  rw [hres, hp, hqs]
  rfl


/-- C3: in `SingleObjectCreateView.form_valid` (once `validate_unique`
passed) and in `SingleObjectEditView.form_valid`, a save that raises flashes
an error message and returns the form-invalid response, never a redirect; a
successful save flashes a success message and redirects to the success
URL. -/
theorem create_edit_flash_messaging (save : Except String Unit)
    (emd : Option String) (object_name success_url : String) :
    (∀ e, save = Except.error e →
      (SingleObjectCreateView.form_valid (Except.ok ()) save emd
          object_name success_url).2 = Response.formInvalid ∧
      (∃ m ∈ (SingleObjectCreateView.form_valid (Except.ok ()) save emd
          object_name success_url).1, m.level = MessageLevel.error) ∧
      (SingleObjectEditView.form_valid save object_name success_url).2 =
        Response.formInvalid ∧
      (∃ m ∈ (SingleObjectEditView.form_valid save
          object_name success_url).1, m.level = MessageLevel.error)) ∧
    (save = Except.ok () →
      (SingleObjectCreateView.form_valid (Except.ok ()) save emd
          object_name success_url).2 = Response.redirect success_url ∧
      (∃ m ∈ (SingleObjectCreateView.form_valid (Except.ok ()) save emd
          object_name success_url).1, m.level = MessageLevel.success) ∧
      (SingleObjectEditView.form_valid save object_name success_url).2 =
        Response.redirect success_url ∧
      (∃ m ∈ (SingleObjectEditView.form_valid save
          object_name success_url).1, m.level = MessageLevel.success)) := by
  constructor
  · rintro e rfl
    refine ⟨rfl, ?_, rfl, ?_⟩ <;>
      simp [SingleObjectCreateView.form_valid, SingleObjectEditView.form_valid]
  · rintro rfl
    refine ⟨rfl, ?_, rfl, ?_⟩ <;>
      simp [SingleObjectCreateView.form_valid, SingleObjectEditView.form_valid]

/-- Witness for C3: a failing save yields form-invalid on create and a
successful save redirects on edit, at concrete inputs. -/
theorem create_edit_flash_messaging_witness :
    (SingleObjectCreateView.form_valid (Except.ok ()) (Except.error "db down")
        none "Document" "/docs").2 = Response.formInvalid ∧
    (SingleObjectEditView.form_valid (Except.ok ()) "Document" "/docs").2 =
      Response.redirect "/docs" :=
  ⟨((create_edit_flash_messaging (Except.error "db down") none "Document"
      "/docs").1 "db down" rfl).1,
   ((create_edit_flash_messaging (Except.ok ()) none "Document"
      "/docs").2 rfl).2.2.1⟩

/-- C4: `SingleObjectDeleteView.delete` flashes a success message and
returns the parent delete result on success; on failure it flashes an error
message naming the object and re-raises the very same exception, never
returning a response. -/
theorem delete_flashes_and_reraises {ρ : Type} (parent : Except String ρ)
    (object_name : String) :
    (∀ r, parent = Except.ok r →
      SingleObjectDeleteView.delete parent object_name =
        ([Message.mk MessageLevel.success
            (object_name ++ " deleted successfully.")], Except.ok r)) ∧
    (∀ e, parent = Except.error e →
      (SingleObjectDeleteView.delete parent object_name).2 =
        Except.error e ∧
      (SingleObjectDeleteView.delete parent object_name).1 =
        [Message.mk MessageLevel.error
          (object_name ++ " not deleted, error: " ++ e ++ ".")]) := by
  constructor
  · rintro r rfl
    rfl
  · rintro e rfl
    exact ⟨rfl, rfl⟩

/-- Witness for C4: a parent delete raising "protected" is re-raised after
an error message naming the object is flashed. -/
theorem delete_flashes_and_reraises_witness :
    (SingleObjectDeleteView.delete (ρ := Nat) (Except.error "protected")
        "Document").2 = Except.error "protected" ∧
    (SingleObjectDeleteView.delete (ρ := Nat) (Except.ok 7) "Document").2 =
      Except.ok 7 :=
  ⟨((delete_flashes_and_reraises (ρ := Nat) (Except.error "protected")
      "Document").2 "protected" rfl).1,
   by
    rw [(delete_flashes_and_reraises (ρ := Nat) (Except.ok 7)
      "Document").1 7 rfl]⟩

/-- C5: `MultiFormView.post` instantiates all configured forms and returns
the result of `forms_valid` exactly when every instantiated form validates;
when at least one form is invalid it returns `forms_invalid`, which
re-renders the response with the bound forms in the context. -/
theorem multi_form_post_dispatch (v : MultiFormViewModel)
    (form_classes : List String) (is_valid : String → Bool) :
    ((∀ form ∈ MultiFormView.get_forms form_classes is_valid,
        form.valid = true) →
      MultiFormView.post v form_classes is_valid =
        (some (MultiFormView.forms_valid v
            (MultiFormView.get_forms form_classes is_valid)).1,
          (MultiFormView.forms_valid v
            (MultiFormView.get_forms form_classes is_valid)).2)) ∧
    ((∃ form ∈ MultiFormView.get_forms form_classes is_valid,
        form.valid = false) →
      MultiFormView.post v form_classes is_valid =
        (none, MFResponse.renderWithForms
          (MultiFormView.get_forms form_classes is_valid)) ∧
      MultiFormView.forms_invalid
          (MultiFormView.get_forms form_classes is_valid) =
        MFResponse.renderWithForms
          (MultiFormView.get_forms form_classes is_valid)) := by
  constructor
  · intro hall
    have h : (MultiFormView.get_forms form_classes is_valid).all
        (fun form => form.valid) = true := by
      rw [List.all_eq_true]
      exact hall
    simp [MultiFormView.post, h]
  · rintro ⟨form, hmem, hinv⟩
    have h : (MultiFormView.get_forms form_classes is_valid).all
        (fun form => form.valid) = false := by
      rw [List.all_eq_false]
      exact ⟨form, hmem, by simp [hinv]⟩
    exact ⟨by simp [MultiFormView.post, MultiFormView.forms_invalid, h], rfl⟩

/-- Witness for C5: with one valid and one invalid configured form, `post`
returns the `forms_invalid` re-render carrying the bound forms. -/
theorem multi_form_post_dispatch_witness :
    MultiFormView.post (MultiFormViewModel.mk (fun _ => false) "/ok")
        ["document", "tag"] (fun name => name == "document") =
      (none, MFResponse.renderWithForms
        [MultiForm.mk "document" true, MultiForm.mk "tag" false]) :=
  ((multi_form_post_dispatch (MultiFormViewModel.mk (fun _ => false) "/ok")
      ["document", "tag"] (fun name => name == "document")).2
    ⟨MultiForm.mk "tag" false, by simp [MultiFormView.get_forms], rfl⟩).1

/-- C9: `MultiFormView.forms_valid` returns the first per-form
`<name>_form_valid` handler's result in iteration order, invoking neither
`all_forms_valid` nor any later handler; only when no form has a per-form
handler does it invoke `all_forms_valid` and redirect to the success
URL. -/
theorem forms_valid_short_circuits (v : MultiFormViewModel)
    (forms : List MultiForm) :
    ((∀ form ∈ forms, v.has_form_valid_method form.name = false) →
      MultiFormView.forms_valid v forms =
        (MFEffects.mk [] true, MFResponse.redirect v.success_url)) ∧
    (∀ pre f post, forms = pre ++ f :: post →
      (∀ g ∈ pre, v.has_form_valid_method g.name = false) →
      v.has_form_valid_method f.name = true →
      MultiFormView.forms_valid v forms =
        (MFEffects.mk [f.name] false, MFResponse.handlerResult f.name)) := by
  constructor
  · intro hnone
    induction forms with
    | nil => rfl
    | cons g rest ih =>
        have hg := hnone g (by simp)
        rw [MultiFormView.forms_valid, hg]
        simp only [Bool.false_eq_true, if_false]
        exact ih fun x hx => hnone x (by simp [hx])
  · intro pre f post hforms hpre hf
    subst hforms
    induction pre with
    | nil =>
        rw [List.nil_append, MultiFormView.forms_valid, hf]
        simp
    | cons g rest ih =>
        have hg := hpre g (by simp)
        rw [List.cons_append, MultiFormView.forms_valid, hg]
        simp only [Bool.false_eq_true, if_false]
        exact ih fun x hx => hpre x (by simp [hx])

/-- Witness for C9: with a handler only for the middle form, `forms_valid`
returns that handler's result with exactly that one handler invoked and
`all_forms_valid` not invoked. -/
theorem forms_valid_short_circuits_witness :
    MultiFormView.forms_valid
        (MultiFormViewModel.mk (fun name => name == "tag") "/ok")
        [MultiForm.mk "document" true, MultiForm.mk "tag" true,
          MultiForm.mk "cabinet" true] =
      (MFEffects.mk ["tag"] false, MFResponse.handlerResult "tag") :=
  (forms_valid_short_circuits
      (MultiFormViewModel.mk (fun name => name == "tag") "/ok")
      [MultiForm.mk "document" true, MultiForm.mk "tag" true,
        MultiForm.mk "cabinet" true]).2
    [MultiForm.mk "document" true] (MultiForm.mk "tag" true)
    [MultiForm.mk "cabinet" true] rfl
    (by intro g hg; simp at hg; subst hg; rfl) rfl

/-- C7: `SingleObjectListView.get_paginate_by` returns the global
`setting_paginate_by` value and is independent of the queryset argument. -/
theorem paginate_by_is_global_setting (v : Nat) (qs qs' : Queryset) :
    SingleObjectListView.get_paginate_by v qs = v ∧
    SingleObjectListView.get_paginate_by v qs =
      SingleObjectListView.get_paginate_by v qs' :=
  ⟨rfl, rfl⟩

/-- C6: `AssignRemoveView.generate_choices` returns one pair per instance,
with key `'<content-type model>,<pk>'` and value the instance's label, and
the result is sorted by the label; the concrete instances in the last
conjunct show the result is not sorted by the key. -/
theorem generate_choices_sorted_by_label (choices : List ModelInstance) :
    (AssignRemoveView.generate_choices choices).Perm
      (choices.map fun choice =>
        (choice.ct_model ++ "," ++ toString choice.pk, choice.label)) ∧
    List.Sorted labelLE (AssignRemoveView.generate_choices choices) ∧
    (∃ a b rest,
      AssignRemoveView.generate_choices
          [ModelInstance.mk "tag" 2 "alpha",
            ModelInstance.mk "document" 1 "beta"] = a :: b :: rest ∧
      ¬ a.1 ≤ b.1) := by
  refine ⟨List.perm_insertionSort labelLE _,
    List.sorted_insertionSort labelLE _,
    ⟨("tag,2", "alpha"), ("document,1", "beta"), [], ?_, ?_⟩⟩
  · have hle : labelLE ("tag,2", "alpha") ("document,1", "beta") := by
      show ("alpha" : String) ≤ "beta"
      rw [String.le_iff_toList_le]
      decide
    have h2 : ("tag," ++ toString (2 : Nat) : String) = "tag,2" := rfl
    have h1 : ("document," ++ toString (1 : Nat) : String) = "document,1" :=
      rfl
    simp [AssignRemoveView.generate_choices, h1, h2, hle]
  · show ¬ ("tag,2" : String) ≤ "document,1"
    rw [String.le_iff_toList_le]
    decide

/-- C8: the construction-time guard raises `ImproperlyConfigured` exactly
when the `get_queryset` attribute resolved on the concrete class is not the
guarded base view's own method; in particular a subclass that defines its
own `get_queryset` fails at `__init__`. -/
theorem init_guard_rejects_get_queryset_overrides (base : String)
    (c : PyClassInfo) :
    ((guarded_init base c = Except.error ()) ↔
      resolve_get_queryset c ≠ some base) ∧
    (∀ sub rest, c.mro = sub :: rest → c.defines_get_queryset sub = true →
      sub ≠ base → guarded_init base c = Except.error ()) := by
  constructor
  · by_cases h : resolve_get_queryset c = some base <;> simp [guarded_init, h]
  · intro sub rest hmro hdef hne
    have hres : resolve_get_queryset c = some sub := by
      rw [resolve_get_queryset, hmro]
      exact List.find?_cons_of_pos _ hdef
    simp [guarded_init, hres, hne]

/-- Witness for C8: a subclass defining its own `get_queryset` raises at
construction time. -/
theorem init_guard_rejects_get_queryset_overrides_witness :
    guarded_init "SingleObjectListView"
      (PyClassInfo.mk ["MyDocumentListView", "SingleObjectListView"]
        (fun name => name == "MyDocumentListView" ||
          name == "SingleObjectListView")) = Except.error () :=
  (init_guard_rejects_get_queryset_overrides "SingleObjectListView"
      (PyClassInfo.mk ["MyDocumentListView", "SingleObjectListView"]
        (fun name => name == "MyDocumentListView" ||
          name == "SingleObjectListView"))).2
    "MyDocumentListView" ["SingleObjectListView"] rfl (by decide) (by decide)

/-- With the submit button present in the POST data and a valid form,
`process_form` runs the selection loop. -/
theorem process_form_run (debug : Bool) (label_of : String → String)
    (action_function : String → Except String Unit)
    (selections : List String) :
    AssignRemoveView.process_form true true debug label_of action_function
        selections =
      AssignRemoveView.process_selections debug label_of action_function
        selections :=
  rfl

/-- C10: with `settings.DEBUG` false, a raising action function flashes an
error message containing the failing selection's label and the loop
continues, so every selection whose action succeeds is still transferred
and no exception propagates; with `settings.DEBUG` true an exception
propagates out of `process_form` exactly when some selection's action
raises. -/
theorem process_form_continues_past_failures (label_of : String → String)
    (action_function : String → Except String Unit)
    (selections : List String) :
    ((AssignRemoveView.process_form true true false label_of
        action_function selections).raised = none ∧
      (AssignRemoveView.process_form true true false label_of
        action_function selections).transferred =
          selections.filter (fun s => exceptOk (action_function s)) ∧
      (∀ s ∈ selections, ∀ e, action_function s = Except.error e →
        Message.mk MessageLevel.error
            ("Unable to transfer selection: " ++ label_of s ++ ".") ∈
          (AssignRemoveView.process_form true true false label_of
            action_function selections).messages)) ∧
    ((AssignRemoveView.process_form true true true label_of
        action_function selections).raised.isSome = true ↔
      ∃ s ∈ selections, exceptOk (action_function s) = false) := by
  rw [process_form_run, process_form_run]
  constructor
  · induction selections with
    | nil =>
        refine ⟨rfl, rfl, ?_⟩
        intro s hs
        cases hs
    | cons a rest ih =>
        obtain ⟨ih1, ih2, ih3⟩ := ih
        cases ha : action_function a with
        | ok u =>
            refine ⟨?_, ?_, ?_⟩
            · simp [AssignRemoveView.process_selections, ha, ih1]
            · simp [AssignRemoveView.process_selections, ha, ih2,
                List.filter_cons, exceptOk]
            · intro s hs e hse
              rcases List.mem_cons.mp hs with rfl | hs
              · rw [ha] at hse
                cases hse
              · simpa [AssignRemoveView.process_selections, ha] using
                  ih3 s hs e hse
        | error exc =>
            refine ⟨?_, ?_, ?_⟩
            · simp [AssignRemoveView.process_selections, ha, ih1]
            · simp [AssignRemoveView.process_selections, ha, ih2,
                List.filter_cons, exceptOk]
            · intro s hs e hse
              rcases List.mem_cons.mp hs with rfl | hs
              · simp [AssignRemoveView.process_selections, ha]
              · simp only [AssignRemoveView.process_selections, ha]
                exact List.mem_cons_of_mem _ (ih3 s hs e hse)
  · induction selections with
    | nil => simp [AssignRemoveView.process_selections]
    | cons a rest ih =>
        cases ha : action_function a with
        | ok u =>
            simp only [AssignRemoveView.process_selections, ha]
            constructor
            · intro h
              obtain ⟨s, hs, hfs⟩ := ih.mp h
              exact ⟨s, List.mem_cons_of_mem _ hs, hfs⟩
            · rintro ⟨s, hs, hfs⟩
              rcases List.mem_cons.mp hs with rfl | hs
              · rw [ha] at hfs
                cases hfs
              · exact ih.mpr ⟨s, hs, hfs⟩
        | error exc =>
            simp only [AssignRemoveView.process_selections, ha]
            constructor
            · intro _
              exact ⟨a, List.mem_cons_self a rest, by rw [ha]; rfl⟩
            · intro _
              rfl

/-- Witness for C10: with an action that raises on selection "x" and
succeeds on "y", the non-debug run flashes the error for "x" while the
debug run propagates the exception. -/
theorem process_form_continues_past_failures_witness :
    Message.mk MessageLevel.error
        ("Unable to transfer selection: " ++ "x" ++ ".") ∈
      (AssignRemoveView.process_form true true false (fun s => s)
        (fun s => if s == "x" then Except.error "boom" else Except.ok ())
        ["x", "y"]).messages ∧
    (AssignRemoveView.process_form true true true (fun s => s)
        (fun s => if s == "x" then Except.error "boom" else Except.ok ())
        ["x", "y"]).raised.isSome = true := by
  constructor
  · exact (process_form_continues_past_failures (fun s => s)
      (fun s => if s == "x" then Except.error "boom" else Except.ok ())
      ["x", "y"]).1.2.2 "x" (by simp) "boom" (by simp)
  · exact (process_form_continues_past_failures (fun s => s)
      (fun s => if s == "x" then Except.error "boom" else Except.ok ())
      ["x", "y"]).2.mpr ⟨"x", by simp, by simp [exceptOk]⟩

end Generics
